import Mathlib

/-!
Verification of the barnabot Google-integration layer.

Shallow embedding of the pure logic of the repository's Python modules:
`gmail_client.py`, `docs_client.py`, `drive_client.py`, `calendar_client.py`
and `auth.py`.  Vendor-library primitives that the repository merely calls
(base64 decoding, `os.path.basename`, `mimetypes.guess_type`, the HTTP
transport) are taken as parameters of the embedding; everything the
repository itself computes is translated definition by definition.
-/

namespace Barnabot

/-- Python truthiness of an optional string: `None` and the empty string
are falsy, every other string is truthy.  Models `if s:` on a
`str = None` keyword argument. -/
def strTruthy : Option String → Bool
  | none => false
  | some s => !(s == "")

/-- Python truthiness of an optional bool: `None` and `False` are falsy.
Models `if b:` on a `bool = None` keyword argument. -/
def optTruthy : Option Bool → Bool
  | none => false
  | some b => b

/-! ## Gmail search-query construction (`GmailClient.search_messages`) -/

/-- The keyword arguments of `GmailClient.search_messages`; every field
defaults to `None` as in the Python signature. -/
structure SearchArgs where
  from_email : Option String := none
  to_email : Option String := none
  subject : Option String := none
  after_date : Option String := none
  before_date : Option String := none
  has_attachment : Option Bool := none
  is_unread : Option Bool := none
deriving DecidableEq

/-- The `query_parts` list built by `GmailClient.search_messages`
(gmail_client.py lines 146-161): one clause appended per truthy
criterion, in the source's fixed order. -/
def search_messages_parts (a : SearchArgs) : List String :=
  (if strTruthy a.from_email then ["from:" ++ a.from_email.getD ""] else [])
  ++ (if strTruthy a.to_email then ["to:" ++ a.to_email.getD ""] else [])
  ++ (if strTruthy a.subject then ["subject:" ++ a.subject.getD ""] else [])
  ++ (if strTruthy a.after_date then ["after:" ++ a.after_date.getD ""] else [])
  ++ (if strTruthy a.before_date then ["before:" ++ a.before_date.getD ""] else [])
  ++ (if optTruthy a.has_attachment then ["has:attachment"] else [])
  ++ (if optTruthy a.is_unread then ["is:unread"] else [])

/-- The query string `GmailClient.search_messages` passes to
`list_messages`: `' '.join(query_parts)` (gmail_client.py line 163). -/
def search_messages_query (a : SearchArgs) : String :=
  String.intercalate " " (search_messages_parts a)

/-- One spec-side clause for an optional string criterion: the clause
`p<v>` when the criterion is supplied as `v`, nothing when absent. -/
def optClause (p : String) : Option String → List String
  | some v => [p ++ v]
  | none => []

/-- Spec-side clause list, written from the claim's words: exactly one
clause per supplied criterion (`from:<v>`, `to:<v>`, `subject:<v>`,
`after:<v>`, `before:<v>`, `has:attachment`, `is:unread`), in that fixed
order; a boolean criterion is supplied when it is passed as `True`. -/
def claimClauses (a : SearchArgs) : List String :=
  optClause "from:" a.from_email
  ++ optClause "to:" a.to_email
  ++ optClause "subject:" a.subject
  ++ optClause "after:" a.after_date
  ++ optClause "before:" a.before_date
  ++ (if a.has_attachment = some true then ["has:attachment"] else [])
  ++ (if a.is_unread = some true then ["is:unread"] else [])

/-- Spec-side query: the supplied clauses joined by a single space, the
provider's boolean-AND token. -/
def claimQuery (a : SearchArgs) : String :=
  String.intercalate " " (claimClauses a)

lemma strSegment (o : Option String) (p : String) (h : o ≠ some "") :
    (if strTruthy o then [p ++ o.getD ""] else []) = optClause p o := by
  cases o with
  | none => simp [strTruthy, optClause]
  | some v =>
      have hv : v ≠ "" := fun hv => h (by rw [hv])
      simp [strTruthy, optClause, hv]

lemma boolSegment (o : Option Bool) (c : String) :
    (if optTruthy o then [c] else []) = (if o = some true then [c] else []) := by
  cases o with
  | none => simp [optTruthy]
  | some b => cases b <;> simp [optTruthy]

/-- C1: for every combination of the optional criteria (each supplied
string criterion being a genuine, non-empty value), the query built by
`search_messages` is exactly the spec's clause list — one clause per
supplied criterion, in the fixed order from/to/subject/after/before/
has:attachment/is:unread, joined by single spaces, with nothing for
absent criteria; in particular `from_email="a@x.com", is_unread=True`
yields `"from:a@x.com is:unread"`. -/
theorem search_messages_query_matches_claim (a : SearchArgs)
    (h1 : a.from_email ≠ some "") (h2 : a.to_email ≠ some "")
    (h3 : a.subject ≠ some "") (h4 : a.after_date ≠ some "")
    (h5 : a.before_date ≠ some "") :
    search_messages_query a = claimQuery a := by
  unfold search_messages_query claimQuery search_messages_parts claimClauses
  rw [strSegment _ _ h1, strSegment _ _ h2, strSegment _ _ h3,
    strSegment _ _ h4, strSegment _ _ h5, boolSegment, boolSegment]

/-- Witness for C1 at the claim's own example: supplying only
`from_email = "a@x.com"` and `is_unread = True` builds the query
`"from:a@x.com is:unread"`. -/
theorem search_messages_query_matches_claim_witness :
    (some "a@x.com" : Option String) ≠ some "" ∧
      search_messages_query
          { from_email := some "a@x.com", is_unread := some true }
        = claimQuery { from_email := some "a@x.com", is_unread := some true } ∧
      search_messages_query
          { from_email := some "a@x.com", is_unread := some true }
        = "from:a@x.com is:unread" := by
  refine ⟨by decide, ?_, by decide⟩
  exact search_messages_query_matches_claim
    { from_email := some "a@x.com", is_unread := some true }
    (by decide) (by decide) (by decide) (by decide) (by decide)

/-! ## Gmail message-body extraction (`GmailClient.get_message_body`)

A Gmail message part is a dict with an optional `mimeType`, an optional
`body.data` (URL-safe base64 text), and optionally a `parts` key holding
a list of sub-parts.  `hasParts` models whether the `parts` key is
present (Python's `'parts' in part`); base64+utf-8 decoding is the
vendor library's job and is a parameter `decode` of the embedding. -/

inductive MsgPart where
  | mk (mimeType : Option String) (data : Option String)
      (hasParts : Bool) (parts : List MsgPart)

/-- The inner `parse_parts` of `get_message_body` (gmail_client.py lines
101-111): for each part, a `text/plain` part appends its decoded body
when the data is non-empty (and its own sub-parts are never visited);
otherwise, a part carrying a `parts` key is recursed into; any other
part contributes nothing. -/
def parse_parts (decode : String → String) : List MsgPart → List String
  | [] => []
  | .mk mimeType data hasParts parts :: rest =>
    (if mimeType = some "text/plain" then
      (if data.getD "" ≠ "" then [decode (data.getD "")] else [])
     else if hasParts then parse_parts decode parts
     else []) ++ parse_parts decode rest

/-- The body of `GmailClient.get_message_body` after fetching the
message (gmail_client.py lines 113-125), as a function of the message's
payload: when the payload carries a `parts` key the parsed part texts
are joined with a newline; otherwise the payload's own body data is
decoded (with no mimeType check), defaulting to the empty string. -/
def get_message_body (decode : String → String) (payload : MsgPart) : String :=
  match payload with
  | .mk _ data hasParts parts =>
    if hasParts then String.intercalate "\n" (parse_parts decode parts)
    else if data.getD "" ≠ "" then decode (data.getD "") else ""

/-- Spec-side flattening written from the claim's words: every node of
the payload part tree is visited, a node whose declared mimeType is
`text/plain` contributes its decoded body, and every other node
contributes nothing. -/
def claimFlatTexts (decode : String → String) : List MsgPart → List String
  | [] => []
  | .mk mimeType data hasParts parts :: rest =>
    (if mimeType = some "text/plain" then
      [if data.getD "" ≠ "" then decode (data.getD "") else ""] else [])
    ++ (if hasParts then claimFlatTexts decode parts else [])
    ++ claimFlatTexts decode rest

/-- Spec-side body written from the claim's words: the plain
concatenation (no separator) of the decoded bodies of the `text/plain`
parts of the recursively flattened payload part tree, the payload node
included. -/
def claimBody (decode : String → String) (payload : MsgPart) : String :=
  String.join (claimFlatTexts decode [payload])

/-- Traversal data for the amended C4 statement: the body data of each
`text/plain` node the code's traversal visits, where the traversal does
not descend below a `text/plain` node and descends into any other node
that carries a `parts` key. -/
def collectPlainData : List MsgPart → List String
  | [] => []
  | .mk mimeType data hasParts parts :: rest =>
    (if mimeType = some "text/plain" then [data.getD ""]
     else if hasParts then collectPlainData parts
     else []) ++ collectPlainData rest

/-- The amended C4 body: with a `parts` key present, the newline-join of
the decoded non-empty bodies collected by `collectPlainData`; with no
`parts` key, the payload's own decoded body data regardless of its
mimeType. -/
def amendedBody (decode : String → String) (payload : MsgPart) : String :=
  match payload with
  | .mk _ data hasParts parts =>
    if hasParts then
      String.intercalate "\n"
        (((collectPlainData parts).filter (fun s => s ≠ "")).map decode)
    else if data.getD "" ≠ "" then decode (data.getD "") else ""

/-- C4 counterexample: the claim as stated fails on the code.  With two
text/plain parts "A" and "B" the code returns the newline-join "A\nB",
not the concatenation "AB" the claim demands; and on the degenerate
no-parts payload of declared mimeType text/html the code returns the
decoded body data "x" while the claim demands that a non-text/plain
part contribute nothing. -/
theorem get_message_body_claim_counterexample :
    get_message_body id
        (.mk (some "multipart/alternative") none true
          [.mk (some "text/plain") (some "A") false [],
            .mk (some "text/plain") (some "B") false []]) = "A\nB" ∧
      claimBody id
        (.mk (some "multipart/alternative") none true
          [.mk (some "text/plain") (some "A") false [],
            .mk (some "text/plain") (some "B") false []]) = "AB" ∧
      ("A\nB" : String) ≠ "AB" ∧
      get_message_body id (.mk (some "text/html") (some "x") false []) = "x" ∧
      claimBody id (.mk (some "text/html") (some "x") false []) = "" ∧
      ("x" : String) ≠ "" := by
  refine ⟨?_, ?_, by decide, ?_, ?_, by decide⟩ <;>
    simp [get_message_body, claimBody, parse_parts, claimFlatTexts,
      String.intercalate, String.join]
  all_goals decide

lemma parse_parts_eq_collect (decode : String → String) (l : List MsgPart) :
    parse_parts decode l
      = ((collectPlainData l).filter (fun s => s ≠ "")).map decode := by
  induction l using parse_parts.induct decode with
  | case1 => simp [parse_parts, collectPlainData]
  | case2 mimeType data hasParts parts rest ih ih2 =>
      simp only [parse_parts, collectPlainData, List.filter_append,
        List.map_append, ih, ih2]
      by_cases hmt : mimeType = some "text/plain"
      · by_cases hd : data.getD "" ≠ "" <;> simp [hmt, hd]
      · by_cases hp : hasParts <;> simp [hmt, hp, ih]

/-- C4 amended: `get_message_body` returns, when the payload carries a
parts list, the newline-join (not plain concatenation) of the decoded
bodies of exactly the text/plain parts with non-empty data reached by a
traversal that never descends below a text/plain part; and when the
payload carries no parts list, the payload's own decoded body data
regardless of its declared mimeType (empty string when absent). -/
theorem get_message_body_amended (decode : String → String) (payload : MsgPart) :
    get_message_body decode payload = amendedBody decode payload := by
  match payload with
  | .mk mimeType data hasParts parts =>
      simp only [get_message_body, amendedBody, parse_parts_eq_collect]

/-! ## Docs text extraction (`GoogleDocsClient.read_document_text`) -/

/-- An element of a paragraph's `elements` list: either one carrying a
`textRun` (with its optional `content` string) or any other element. -/
inductive ParaElement where
  | textRun (content : Option String)
  | otherElement
deriving DecidableEq

/-- A structural element of the document body's `content` list: either
one carrying a `paragraph` key (with its `elements` list, defaulting to
empty) or any other structural element (table, image, ...). -/
inductive StructuralElement where
  | paragraph (elements : List ParaElement)
  | nonParagraph
deriving DecidableEq

/-- The accumulation loop of `read_document_text` (docs_client.py lines
96-103): walk the body content, and inside each paragraph element append
the `content` (defaulting to the empty string) of every element that
carries a `textRun`; finally join with the empty separator. -/
def read_document_text (content : List StructuralElement) : String :=
  String.join (content.foldl (fun text_parts e =>
    match e with
    | .paragraph els =>
        els.foldl (fun acc pe =>
          match pe with
          | .textRun c => acc ++ [c.getD ""]
          | .otherElement => acc) text_parts
    | .nonParagraph => text_parts) [])

/-- Spec-side list of text-run contents of one paragraph, from the
claim's words. -/
def paragraphRunTexts (els : List ParaElement) : List String :=
  els.filterMap (fun pe =>
    match pe with
    | .textRun c => some (c.getD "")
    | .otherElement => none)

/-- Spec-side extraction written from the claim's words: the in-order
concatenation of the content strings of textRun elements found inside
paragraph elements, every non-paragraph structural element skipped. -/
def claimDocText (content : List StructuralElement) : String :=
  String.join (content.flatMap (fun e =>
    match e with
    | .paragraph els => paragraphRunTexts els
    | .nonParagraph => []))

lemma innerFold_eq (els : List ParaElement) (acc : List String) :
    els.foldl (fun a pe =>
        match pe with
        | .textRun c => a ++ [c.getD ""]
        | .otherElement => a) acc
      = acc ++ paragraphRunTexts els := by
  induction els generalizing acc with
  | nil => simp [paragraphRunTexts]
  | cons pe rest ih =>
      cases pe <;> simp [paragraphRunTexts, List.filterMap_cons, ih]

lemma docFold_eq (content : List StructuralElement) (acc : List String) :
    content.foldl (fun text_parts e =>
        match e with
        | .paragraph els =>
            els.foldl (fun a pe =>
              match pe with
              | .textRun c => a ++ [c.getD ""]
              | .otherElement => a) text_parts
        | .nonParagraph => text_parts) acc
      = acc ++ content.flatMap (fun e =>
          match e with
          | .paragraph els => paragraphRunTexts els
          | .nonParagraph => []) := by
  induction content generalizing acc with
  | nil => simp
  | cons e rest ih =>
      cases e with
      | paragraph els =>
          rw [List.foldl_cons, ih, List.flatMap_cons, ← List.append_assoc]
          congr 1
          exact innerFold_eq els acc
      | nonParagraph =>
          rw [List.foldl_cons, ih, List.flatMap_cons]
          simp

/-- C5: `read_document_text` is exactly the in-order concatenation of
the content strings of textRun elements inside paragraph elements, with
every non-paragraph structural element silently skipped; a body with one
"Hello" paragraph and one table yields exactly "Hello", and — the
extraction being a pure function of the content tree — repeating it on
the unchanged document yields the same string. -/
theorem read_document_text_matches_claim :
    (∀ content, read_document_text content = claimDocText content) ∧
      read_document_text
          [.paragraph [.textRun (some "Hello")], .nonParagraph] = "Hello" ∧
      (∀ content, read_document_text content = read_document_text content) := by
  refine ⟨fun content => ?_, rfl, fun _ => rfl⟩
  simp [read_document_text, claimDocText, docFold_eq]

/-! ## Auth manager: service getters, scopes, authenticate, revoke
(auth.py), and the calendar client's service acquisition
(calendar_client.py) -/

/-- The four remote API surfaces the spec names. -/
inductive ApiSurface where
  | drive
  | docs
  | gmail
  | calendar
deriving DecidableEq

/-- The service-getter methods `GoogleAuthManager` defines (auth.py
lines 99-115): `get_drive_service` builds `('drive', 'v3')`,
`get_docs_service` builds `('docs', 'v1')`, `get_gmail_service` builds
`('gmail', 'v1')`.  The class defines no calendar getter. -/
def authManagerServiceGetter : ApiSurface → Option (String × String)
  | .drive => some ("drive", "v3")
  | .docs => some ("docs", "v1")
  | .gmail => some ("gmail", "v1")
  | .calendar => none

/-- `GoogleCalendarClient._ensure_service` (calendar_client.py lines
20-22) resolves and calls `get_calendar_service` on its auth manager; a
missing attribute raises a Python `AttributeError`. -/
def calendar_ensure_service : Except String (String × String) :=
  match authManagerServiceGetter .calendar with
  | some svc => Except.ok svc
  | none => Except.error "AttributeError: get_calendar_service"

/-- C2 (code bug): drive, docs and gmail sessions are each built with
their distinct API version string, but the auth manager defines no
calendar getter, so `GoogleCalendarClient._ensure_service` fails with an
AttributeError instead of obtaining a calendar v3 session. -/
theorem calendar_service_missing :
    authManagerServiceGetter .drive = some ("drive", "v3") ∧
      authManagerServiceGetter .docs = some ("docs", "v1") ∧
      authManagerServiceGetter .gmail = some ("gmail", "v1") ∧
      authManagerServiceGetter .calendar = none ∧
      calendar_ensure_service
        = Except.error "AttributeError: get_calendar_service" :=
  ⟨rfl, rfl, rfl, rfl, rfl⟩

/-- The module-level `SCOPES` list of auth.py (lines 17-23). -/
def SCOPES : List String :=
  ["https://www.googleapis.com/auth/drive",
    "https://www.googleapis.com/auth/documents",
    "https://www.googleapis.com/auth/gmail.readonly",
    "https://www.googleapis.com/auth/gmail.send",
    "https://www.googleapis.com/auth/gmail.modify"]

/-- C3 counterexample: the claim's six-scope set is not what the code
requests — the calendar scope is absent from `SCOPES`, which has only
five entries. -/
theorem SCOPES_no_calendar :
    "https://www.googleapis.com/auth/calendar" ∉ SCOPES ∧
      SCOPES.length = 5 := by
  decide

/-- C3 amended: the fixed scope set requested up front consists of
exactly the five scopes drive (full), documents, gmail.readonly,
gmail.send and gmail.modify — no calendar scope, no duplicates. -/
theorem SCOPES_exactly_five :
    SCOPES.Nodup ∧
      ∀ s, s ∈ SCOPES ↔
        (s = "https://www.googleapis.com/auth/drive" ∨
          s = "https://www.googleapis.com/auth/documents" ∨
          s = "https://www.googleapis.com/auth/gmail.readonly" ∨
          s = "https://www.googleapis.com/auth/gmail.send" ∨
          s = "https://www.googleapis.com/auth/gmail.modify") := by
  refine ⟨by decide, fun s => ?_⟩
  simp [SCOPES]

/-- An OAuth2 credential as the vendor library models it: an optional
access token, an expiry flag, and an optional refresh token.  The
library's `valid` property is `token is not None and not expired`. -/
structure Creds where
  token : Option String
  expired : Bool
  refreshToken : Option String
deriving DecidableEq

/-- Vendor-library `Credentials.valid`: a token is present and it is not
expired. -/
def Creds.valid (c : Creds) : Bool := c.token.isSome && !c.expired

/-- The environment `authenticate` runs against: the stored token file
content (`none` = file absent), whether credentials.json exists, and the
credentials that the vendor refresh call and the interactive flow would
produce on success. -/
structure AuthEnv where
  storedCred : Option Creds
  credentialsFileExists : Bool
  refreshedCred : Creds
  flowCred : Creds
deriving DecidableEq

/-- The observable outcome of one `authenticate` call: the returned
credential or the raised error, how many refresh network calls ran,
whether the interactive OAuth flow ran, and what was written to the
token file (`none` = file left untouched). -/
structure AuthOutcome where
  result : Except String Creds
  refreshCalls : Nat
  ranInteractiveFlow : Bool
  written : Option Creds

/-- `GoogleAuthManager.authenticate` (auth.py lines 44-97).  The stored
token file, when present, is loaded over the in-memory `self.creds`
(`creds0`).  Valid credentials are returned at once with no further
effect.  Invalid-but-expired credentials carrying a (truthy) refresh
token trigger exactly one refresh call, and the refreshed credential is
written to the token file (lines 92-95) before being returned.  In every
other case the interactive flow runs — after raising FileNotFoundError
when credentials.json is absent — and its credential is saved and
returned. -/
def authenticate (env : AuthEnv) (creds0 : Option Creds) : AuthOutcome :=
  let creds := if env.storedCred.isSome then env.storedCred else creds0
  match creds with
  | some c =>
      if c.valid then ⟨Except.ok c, 0, false, none⟩
      else if c.expired && strTruthy c.refreshToken then
        ⟨Except.ok env.refreshedCred, 1, false, some env.refreshedCred⟩
      else if !env.credentialsFileExists then
        ⟨Except.error "FileNotFoundError", 0, false, none⟩
      else ⟨Except.ok env.flowCred, 0, true, some env.flowCred⟩
  | none =>
      if !env.credentialsFileExists then
        ⟨Except.error "FileNotFoundError", 0, false, none⟩
      else ⟨Except.ok env.flowCred, 0, true, some env.flowCred⟩

/-- C6: a stored, valid (non-expired, token-bearing) credential is
returned as-is — no refresh network call, no interactive flow, and the
token file is not rewritten. -/
theorem authenticate_valid_stored (env : AuthEnv) (creds0 : Option Creds)
    (c : Creds) (hs : env.storedCred = some c) (hv : c.valid = true) :
    authenticate env creds0 = ⟨Except.ok c, 0, false, none⟩ := by
  simp [authenticate, hs, hv]

/-- Witness for C6: a concrete valid stored credential is returned
untouched with no refresh and no interactive flow. -/
theorem authenticate_valid_stored_witness :
    (AuthEnv.mk (some ⟨some "tok", false, some "rt"⟩) true
          ⟨some "new", false, some "rt"⟩ ⟨some "flow", false, none⟩).storedCred
        = some ⟨some "tok", false, some "rt"⟩ ∧
      Creds.valid ⟨some "tok", false, some "rt"⟩ = true ∧
      authenticate
          (AuthEnv.mk (some ⟨some "tok", false, some "rt"⟩) true
            ⟨some "new", false, some "rt"⟩ ⟨some "flow", false, none⟩) none
        = ⟨Except.ok ⟨some "tok", false, some "rt"⟩, 0, false, none⟩ := by
  refine ⟨rfl, by decide, ?_⟩
  exact authenticate_valid_stored _ none ⟨some "tok", false, some "rt"⟩ rfl
    (by decide)

/-- C7: a stored credential that is expired but carries a refresh token
triggers exactly one refresh call and no interactive flow, and the
refreshed credential is both written back to the token store and
returned. -/
theorem authenticate_expired_refreshes (env : AuthEnv) (creds0 : Option Creds)
    (c : Creds) (hs : env.storedCred = some c) (he : c.expired = true)
    (hr : strTruthy c.refreshToken = true) :
    authenticate env creds0
      = ⟨Except.ok env.refreshedCred, 1, false, some env.refreshedCred⟩ := by
  have hv : c.valid = false := by simp [Creds.valid, he]
  simp [authenticate, hs, hv, he, hr]

/-- Witness for C7: a concrete expired credential with a refresh token
yields exactly one refresh call, no interactive flow, and the refreshed
credential persisted and returned. -/
theorem authenticate_expired_refreshes_witness :
    (AuthEnv.mk (some ⟨some "tok", true, some "rt"⟩) true
          ⟨some "new", false, some "rt"⟩ ⟨some "flow", false, none⟩).storedCred
        = some ⟨some "tok", true, some "rt"⟩ ∧
      (⟨some "tok", true, some "rt"⟩ : Creds).expired = true ∧
      strTruthy (⟨some "tok", true, some "rt"⟩ : Creds).refreshToken = true ∧
      authenticate
          (AuthEnv.mk (some ⟨some "tok", true, some "rt"⟩) true
            ⟨some "new", false, some "rt"⟩ ⟨some "flow", false, none⟩) none
        = ⟨Except.ok ⟨some "new", false, some "rt"⟩, 1, false,
            some ⟨some "new", false, some "rt"⟩⟩ := by
  refine ⟨rfl, rfl, by decide, ?_⟩
  exact authenticate_expired_refreshes _ none ⟨some "tok", true, some "rt"⟩ rfl
    rfl (by decide)

/-- The auth manager state `revoke_credentials` acts on: the token file
content (`none` = absent) and the in-memory credential. -/
structure AuthState where
  tokenFile : Option Creds
  creds : Option Creds
deriving DecidableEq

/-- Python `os.remove`: deletes the file, raising FileNotFoundError when
it does not exist. -/
def os_remove (f : Option Creds) : Except String (Option Creds) :=
  match f with
  | some _ => Except.ok none
  | none => Except.error "FileNotFoundError"

/-- `GoogleAuthManager.revoke_credentials` (auth.py lines 117-122): the
token file is removed only when it exists — so the unguarded
FileNotFoundError of `os.remove` can never fire — and `self.creds` is
cleared. -/
def revoke_credentials (s : AuthState) : Except String AuthState :=
  if s.tokenFile.isSome then
    match os_remove s.tokenFile with
    | Except.ok f => Except.ok ⟨f, none⟩
    | Except.error e => Except.error e
  else Except.ok ⟨s.tokenFile, none⟩

/-- C9: revoke is idempotent — from any state, one call succeeds and
leaves the store absent and the in-memory credential cleared, and a
second call chained after it (on the already-absent store) succeeds with
the same final state and raises nothing. -/
theorem revoke_credentials_idempotent (s : AuthState) :
    revoke_credentials s = Except.ok ⟨none, none⟩ ∧
      (revoke_credentials s).bind revoke_credentials
        = Except.ok ⟨none, none⟩ := by
  rcases s with ⟨tf, cr⟩
  cases tf <;> simp [revoke_credentials, os_remove, Except.bind]

/-! ## Error propagation in service-client domain operations
(gmail_client.py `list_messages`, drive_client.py `list_files`) -/

/-- Outcome of the single remote `.execute()` call underlying a domain
operation: the parsed response, or an HttpError carried as an opaque
payload string. -/
inductive RemoteOutcome (α : Type) where
  | ok (resp : α)
  | httpError (e : String)

/-- The response dict of Gmail `users().messages().list`: an optional
`messages` key. -/
structure GmailListResponse where
  messages : Option (List String)

/-- `GmailClient.list_messages` (gmail_client.py lines 50-62) as a
function of its single remote call's outcome: on success,
`response.get('messages', [])`; on HttpError, the error is logged and
re-raised unchanged. -/
def list_messages (remote : RemoteOutcome GmailListResponse) :
    Except String (List String) :=
  match remote with
  | .ok resp => Except.ok (resp.messages.getD [])
  | .httpError e => Except.error e

/-- The response dict of Drive `files().list`: an optional `files`
key. -/
structure DriveListResponse where
  files : Option (List String)

/-- `GoogleDriveClient.list_files` (drive_client.py lines 51-61) as a
function of its single remote call's outcome: on success,
`results.get('files', [])`; on HttpError, the error is logged and
re-raised unchanged. -/
def list_files (remote : RemoteOutcome DriveListResponse) :
    Except String (List String) :=
  match remote with
  | .ok resp => Except.ok (resp.files.getD [])
  | .httpError e => Except.error e

/-- C8: when the single underlying remote call fails with an HTTP error,
each domain operation re-raises that very error unchanged — it never
returns normally or substitutes a default result (and, being a function
of one remote outcome, it cannot retry). -/
theorem remote_error_reraised (e : String) :
    list_messages (.httpError e) = Except.error e ∧
      list_files (.httpError e) = Except.error e ∧
      (∀ r, list_messages (.httpError e) ≠ Except.ok r) ∧
      (∀ r, list_files (.httpError e) ≠ Except.ok r) := by
  refine ⟨rfl, rfl, fun r => ?_, fun r => ?_⟩ <;> simp [list_messages, list_files]

/-! ## Drive upload (`GoogleDriveClient.upload_file`) -/

/-- The import statements at module scope of drive_client.py (lines
7-12); `os` is not among them (the only `import os` in the file sits
inside the `if __name__ == '__main__'` block and never runs on
import). -/
def driveClientModuleImports : List String :=
  ["io", "mimetypes", "typing", "googleapiclient.http",
    "googleapiclient.errors", ".auth"]

/-- Whether the global name `os` is bound when drive_client is used as
an imported module. -/
def osInScope : Bool := driveClientModuleImports.contains "os"

/-- A Python failure raised before any remote call. -/
inductive PyFailure where
  | nameError (name : String)
deriving DecidableEq

/-- The `files().create` request `upload_file` issues; producing one
models reaching the remote call. -/
structure UploadRequest where
  name : String
  file_path : String
  mime_type : String
  folder_id : Option String
deriving DecidableEq

/-- `GoogleDriveClient.upload_file` up to its remote call
(drive_client.py lines 163-183), parameterized by the stdlib helpers
`os.path.basename` and `mimetypes.guess_type`.  With `name=None` the
code evaluates `os.path.basename`, which resolves the global `os` —
a NameError unless `os` is in scope; with an explicit name the `os`
reference is never evaluated, the mime type is resolved (guessed from
the file name when not given, defaulting to application/octet-stream),
and the request is built. -/
def upload_file (basename : String → String)
    (guess_type : String → Option String) (file_path : String)
    (name : Option String) (folder_id : Option String)
    (mime_type : Option String) : Except PyFailure UploadRequest :=
  match name with
  | none =>
      if osInScope then
        Except.ok ⟨basename file_path, file_path,
          (match mime_type with
            | some m => m
            | none => (guess_type file_path).getD "application/octet-stream"),
          folder_id⟩
      else Except.error (.nameError "os")
  | some n =>
      Except.ok ⟨n, file_path,
        (match mime_type with
          | some m => m
          | none => (guess_type file_path).getD "application/octet-stream"),
        folder_id⟩

/-- C10: with the name argument omitted, `upload_file` fails with a
NameError on `os` before any remote call is issued (no UploadRequest is
produced), because drive_client.py never imports `os` at module scope;
with an explicit name the `os` reference is not evaluated and the
operation proceeds to the remote call with that name. -/
theorem upload_file_name_omitted_nameError (basename : String → String)
    (guess_type : String → Option String) (file_path : String)
    (folder_id mime_type : Option String) :
    upload_file basename guess_type file_path none folder_id mime_type
        = Except.error (.nameError "os") ∧
      ∀ n, ∃ req,
        upload_file basename guess_type file_path (some n) folder_id mime_type
            = Except.ok req ∧ req.name = n := by
  refine ⟨?_, fun n => ?_⟩
  · simp [upload_file, osInScope, driveClientModuleImports]
  · exact ⟨_, rfl, rfl⟩

end Barnabot
